import Mathlib

/-!
Verification development for the gesture-recognition core of the
`hand_canvas` repository (the `GestureDetector` class).  The
TypeScript class is embedded shallowly:

* JavaScript numbers are modelled as rationals (`ℚ`); every arithmetic
  operation the source performs (addition, subtraction, multiplication,
  division) is exact on the inputs we reason about.
* The source's `distance` helper returns `Math.sqrt` of a sum of squares
  and is only ever used in order comparisons whose two sides are
  nonnegative real numbers.  The embedding therefore works with the
  *squared* distance (`distSq`) and compares it against *squared*
  thresholds: for nonnegative `t`, `Real.sqrt d < t ↔ d < t * t`.  The
  lemmas `sqrt_lt_iff_mul_self` and `sqrt_mul_lt_sqrt_iff` below prove
  this equivalence, and the theorem for claim C6 states the finger
  tests in the original `Real.sqrt` form.  Thresholds are nonnegative
  configuration constants; the nonnegativity assumptions appear
  explicitly as hypotheses where they matter.
* The mutable fields of the class become an explicit `DetectorState`
  record threaded through the methods; methods that mutate state return
  the updated record alongside their result.
* `performance.now()` becomes an explicit `now : ℚ` argument to
  `detect`, and the null-able `landmarks` parameter becomes an
  `Option HandLandmarks`.

The repository's `constants.ts` is not part of the provided sources;
the landmark indices and the threshold record below are modelled from
the spec (see the doc comments on `LANDMARKS.WRIST` and
`GestureConfig`).
-/

/-- A 2D point with rational coordinates, embedding the source's
`Point2D = {x: number, y: number}`. -/
structure Point2D where
  x : ℚ
  y : ℚ
deriving DecidableEq, Inhabited

/-- Squared planar Euclidean distance.  The source's
`distance(p1, p2)` is `Real.sqrt` of this quantity; see the file
header for why the embedding squares both sides of every comparison. -/
def distSq (p1 p2 : Point2D) : ℚ :=
  (p1.x - p2.x) * (p1.x - p2.x) + (p1.y - p2.y) * (p1.y - p2.y)

/-- The closed gesture label enumeration of the source
(`GestureType`). -/
inductive GestureType
  | none
  | draw
  | pinch
  | fist
  | palm
  | swipe
deriving DecidableEq

/-- A hand frame: the 21 anatomically indexed landmarks.  The source
reads `landmarks.landmarks[i]`; the optional world-space sequence is
never consulted by the detector and is omitted. -/
structure HandLandmarks where
  landmarks : Fin 21 → Point2D

/-- The per-frame output record of the source (`GestureState`). -/
structure GestureState where
  current : GestureType
  previous : GestureType
  duration : ℚ
  velocity : Point2D
  confidence : ℚ
deriving DecidableEq

/-- Modelled from the spec: `constants.ts` is missing from the provided
sources; the spec fixes the landmark order as WRIST, THUMB_CMC,
THUMB_MCP, THUMB_IP, THUMB_TIP, INDEX_MCP, INDEX_PIP, INDEX_DIP,
INDEX_TIP, MIDDLE_MCP/PIP/DIP/TIP, RING_MCP/PIP/DIP/TIP,
PINKY_MCP/PIP/DIP/TIP, giving the indices below. -/
def LANDMARKS.WRIST : Fin 21 := ⟨0, by norm_num⟩

/-- Modelled from the spec: landmark index 3 (see `LANDMARKS.WRIST`). -/
def LANDMARKS.THUMB_IP : Fin 21 := ⟨3, by norm_num⟩

/-- Modelled from the spec: landmark index 4 (see `LANDMARKS.WRIST`). -/
def LANDMARKS.THUMB_TIP : Fin 21 := ⟨4, by norm_num⟩

/-- Modelled from the spec: landmark index 5 (see `LANDMARKS.WRIST`). -/
def LANDMARKS.INDEX_MCP : Fin 21 := ⟨5, by norm_num⟩

/-- Modelled from the spec: landmark index 6 (see `LANDMARKS.WRIST`). -/
def LANDMARKS.INDEX_PIP : Fin 21 := ⟨6, by norm_num⟩

/-- Modelled from the spec: landmark index 8 (see `LANDMARKS.WRIST`). -/
def LANDMARKS.INDEX_TIP : Fin 21 := ⟨8, by norm_num⟩

/-- Modelled from the spec: landmark index 9 (see `LANDMARKS.WRIST`). -/
def LANDMARKS.MIDDLE_MCP : Fin 21 := ⟨9, by norm_num⟩

/-- Modelled from the spec: landmark index 10 (see `LANDMARKS.WRIST`). -/
def LANDMARKS.MIDDLE_PIP : Fin 21 := ⟨10, by norm_num⟩

/-- Modelled from the spec: landmark index 12 (see `LANDMARKS.WRIST`). -/
def LANDMARKS.MIDDLE_TIP : Fin 21 := ⟨12, by norm_num⟩

/-- Modelled from the spec: landmark index 13 (see `LANDMARKS.WRIST`). -/
def LANDMARKS.RING_MCP : Fin 21 := ⟨13, by norm_num⟩

/-- Modelled from the spec: landmark index 14 (see `LANDMARKS.WRIST`). -/
def LANDMARKS.RING_PIP : Fin 21 := ⟨14, by norm_num⟩

/-- Modelled from the spec: landmark index 16 (see `LANDMARKS.WRIST`). -/
def LANDMARKS.RING_TIP : Fin 21 := ⟨16, by norm_num⟩

/-- Modelled from the spec: landmark index 17 (see `LANDMARKS.WRIST`). -/
def LANDMARKS.PINKY_MCP : Fin 21 := ⟨17, by norm_num⟩

/-- Modelled from the spec: landmark index 18 (see `LANDMARKS.WRIST`). -/
def LANDMARKS.PINKY_PIP : Fin 21 := ⟨18, by norm_num⟩

/-- Modelled from the spec: landmark index 20 (see `LANDMARKS.WRIST`). -/
def LANDMARKS.PINKY_TIP : Fin 21 := ⟨20, by norm_num⟩

/-- Modelled from the spec: the numeric thresholds of the missing
`constants.ts` (`GESTURE.SWIPE_VELOCITY`, `GESTURE.PINCH_THRESHOLD`,
`GESTURE.FINGER_CURL_THRESHOLD`, `GESTURE.PALM_STABILITY_THRESHOLD`).
The spec describes them only as externally supplied configuration
constants (the swipe-velocity, pinch-distance, finger-curl-ratio and
palm-stability-radius thresholds), so the development is parametric in
this record. -/
structure GestureConfig where
  SWIPE_VELOCITY : ℚ
  PINCH_THRESHOLD : ℚ
  FINGER_CURL_THRESHOLD : ℚ
  PALM_STABILITY_THRESHOLD : ℚ

/-- The mutable fields of the `GestureDetector` class, as an explicit
state record. -/
structure DetectorState where
  lastLandmarks : Option HandLandmarks
  lastTime : ℚ
  gestureStartTime : ℚ
  currentGesture : GestureType
  previousGesture : GestureType
  palmHistory : List Point2D
  velocityHistory : List Point2D

/-- The field initializers of the class: no last frame, zero times,
`none` labels, empty histories. -/
def initState : DetectorState :=
  { lastLandmarks := Option.none
    lastTime := 0
    gestureStartTime := 0
    currentGesture := GestureType.none
    previousGesture := GestureType.none
    palmHistory := []
    velocityHistory := [] }

/-- `getPalmCenter`: unweighted mean of WRIST, INDEX_MCP and PINKY_MCP. -/
def getPalmCenter (h : HandLandmarks) : Point2D :=
  { x := ((h.landmarks LANDMARKS.WRIST).x + (h.landmarks LANDMARKS.INDEX_MCP).x +
      (h.landmarks LANDMARKS.PINKY_MCP).x) / 3
    y := ((h.landmarks LANDMARKS.WRIST).y + (h.landmarks LANDMARKS.INDEX_MCP).y +
      (h.landmarks LANDMARKS.PINKY_MCP).y) / 3 }

/-- The `reduce` accumulation inside `calculateVelocity`: componentwise
sum of a list of points starting from the origin (JavaScript `reduce`
with initial value is a left fold). -/
def vsum (l : List Point2D) : Point2D :=
  l.foldl (fun acc v => { x := acc.x + v.x, y := acc.y + v.y }) { x := 0, y := 0 }

/-- `calculateVelocity`: with no prior frame or `dt = 0` it returns the
zero vector and leaves the velocity history untouched; otherwise it
pushes the raw palm-center velocity onto the history (evicting the
front once the length exceeds 2, `Array.shift` being `List.tail`) and
returns the componentwise mean of the samples held.  The result pairs
the returned velocity with the updated history. -/
def calculateVelocity (lastLandmarks : Option HandLandmarks)
    (velocityHistory : List Point2D) (landmarks : HandLandmarks) (dt : ℚ) :
    Point2D × List Point2D :=
  match lastLandmarks with
  | Option.none => ({ x := 0, y := 0 }, velocityHistory)
  | Option.some lastLm =>
    if dt = 0 then ({ x := 0, y := 0 }, velocityHistory)
    else
      let currentPalm := getPalmCenter landmarks
      let lastPalm := getPalmCenter lastLm
      let velocity : Point2D :=
        { x := (currentPalm.x - lastPalm.x) / dt
          y := (currentPalm.y - lastPalm.y) / dt }
      let pushed := velocityHistory ++ [velocity]
      let kept := if pushed.length > 2 then pushed.tail else pushed
      let avg := vsum kept
      ({ x := avg.x / (kept.length : ℚ), y := avg.y / (kept.length : ℚ) }, kept)

/-- `isFingerExtended`: a non-thumb finger is extended iff its tip is
farther from the wrist than its PIP joint is, by more than the
configured curl-threshold ratio.  The source compares Euclidean
distances; both sides being nonnegative, the embedding compares squared
distances against the squared ratio (see the file header and claim C6).
The MCP index is accepted and ignored exactly as in the source. -/
def isFingerExtended (cfg : GestureConfig) (h : HandLandmarks)
    (tipIdx pipIdx _mcpIdx : Fin 21) : Bool :=
  let tip := h.landmarks tipIdx
  let pip := h.landmarks pipIdx
  let tipToPalm := distSq tip (h.landmarks LANDMARKS.WRIST)
  let pipToPalm := distSq pip (h.landmarks LANDMARKS.WRIST)
  decide (tipToPalm > pipToPalm * (cfg.FINGER_CURL_THRESHOLD * cfg.FINGER_CURL_THRESHOLD))

/-- `isThumbExtended`: the thumb is extended iff its tip is farther
from the index MCP than 1.5 times the tip-to-IP length (squared
comparison, as in `isFingerExtended`). -/
def isThumbExtended (h : HandLandmarks) : Bool :=
  let thumbTip := h.landmarks LANDMARKS.THUMB_TIP
  let thumbIp := h.landmarks LANDMARKS.THUMB_IP
  let indexMcp := h.landmarks LANDMARKS.INDEX_MCP
  let distFromIndex := distSq thumbTip indexMcp
  let thumbLength := distSq thumbTip thumbIp
  decide (distFromIndex > thumbLength * ((3 / 2) * (3 / 2)))

/-- `isPointingIndex`: index extended, middle, ring and pinky curled
(thumb ignored). -/
def isPointingIndex (cfg : GestureConfig) (h : HandLandmarks) : Bool :=
  isFingerExtended cfg h LANDMARKS.INDEX_TIP LANDMARKS.INDEX_PIP LANDMARKS.INDEX_MCP &&
    !isFingerExtended cfg h LANDMARKS.MIDDLE_TIP LANDMARKS.MIDDLE_PIP LANDMARKS.MIDDLE_MCP &&
    !isFingerExtended cfg h LANDMARKS.RING_TIP LANDMARKS.RING_PIP LANDMARKS.RING_MCP &&
    !isFingerExtended cfg h LANDMARKS.PINKY_TIP LANDMARKS.PINKY_PIP LANDMARKS.PINKY_MCP

/-- `isOpenPalm`: all four fingers and the thumb test as extended. -/
def isOpenPalm (cfg : GestureConfig) (h : HandLandmarks) : Bool :=
  isFingerExtended cfg h LANDMARKS.INDEX_TIP LANDMARKS.INDEX_PIP LANDMARKS.INDEX_MCP &&
    isFingerExtended cfg h LANDMARKS.MIDDLE_TIP LANDMARKS.MIDDLE_PIP LANDMARKS.MIDDLE_MCP &&
    isFingerExtended cfg h LANDMARKS.RING_TIP LANDMARKS.RING_PIP LANDMARKS.RING_MCP &&
    isFingerExtended cfg h LANDMARKS.PINKY_TIP LANDMARKS.PINKY_PIP LANDMARKS.PINKY_MCP &&
    isThumbExtended h

/-- `isFist`: all four fingers and the thumb test as curled. -/
def isFist (cfg : GestureConfig) (h : HandLandmarks) : Bool :=
  !isFingerExtended cfg h LANDMARKS.INDEX_TIP LANDMARKS.INDEX_PIP LANDMARKS.INDEX_MCP &&
    !isFingerExtended cfg h LANDMARKS.MIDDLE_TIP LANDMARKS.MIDDLE_PIP LANDMARKS.MIDDLE_MCP &&
    !isFingerExtended cfg h LANDMARKS.RING_TIP LANDMARKS.RING_PIP LANDMARKS.RING_MCP &&
    !isFingerExtended cfg h LANDMARKS.PINKY_TIP LANDMARKS.PINKY_PIP LANDMARKS.PINKY_MCP &&
    !isThumbExtended h

/-- `isPalmStable`, parameterised by the history it inspects (the
source reads `this.palmHistory` after the current frame's palm center
has been pushed): fewer than 3 samples is unstable; otherwise every
point of the most recent 3 (`slice(-3)`, i.e. `drop (length - 3)`)
must lie within the palm-stability radius of the first (oldest) of
those 3.  The source's early-return loop over `recent` is the `all` of
the negated comparison. -/
def isPalmStable (cfg : GestureConfig) (palmHistory : List Point2D) : Bool :=
  if palmHistory.length < 3 then false
  else
    let recent := palmHistory.drop (palmHistory.length - 3)
    let first := recent.headI
    recent.all fun point =>
      decide (distSq point first ≤
        cfg.PALM_STABILITY_THRESHOLD * cfg.PALM_STABILITY_THRESHOLD)

/-- `detectGestureType`, returning the label together with the updated
palm history (the source mutates `this.palmHistory` in the open-palm
branch and clears it in the matching else branch).  The rule order is
the source's: swipe, pinch, fist, palm (with fall-through to the later
rules when stability is not yet confirmed), draw, none.  The swipe
speed test squares both sides of `sqrt (vx² + vy²) > SWIPE_VELOCITY`;
the pinch test squares both sides of `distance < PINCH_THRESHOLD`. -/
def detectGestureType (cfg : GestureConfig) (palmHistory : List Point2D)
    (landmarks : HandLandmarks) (velocity : Point2D) :
    GestureType × List Point2D :=
  let lm := landmarks.landmarks
  if velocity.x * velocity.x + velocity.y * velocity.y >
      cfg.SWIPE_VELOCITY * cfg.SWIPE_VELOCITY ∧
      |velocity.x| > |velocity.y| * (3 / 2) then
    (GestureType.swipe, palmHistory)
  else if distSq (lm LANDMARKS.THUMB_TIP) (lm LANDMARKS.INDEX_TIP) <
      cfg.PINCH_THRESHOLD * cfg.PINCH_THRESHOLD then
    (GestureType.pinch, palmHistory)
  else if isFist cfg landmarks then
    (GestureType.fist, palmHistory)
  else if isOpenPalm cfg landmarks then
    let pushed := palmHistory ++ [getPalmCenter landmarks]
    let kept := if pushed.length > 6 then pushed.tail else pushed
    if kept.length ≥ 3 ∧ isPalmStable cfg kept then
      (GestureType.palm, kept)
    else if isPointingIndex cfg landmarks then
      (GestureType.draw, kept)
    else
      (GestureType.none, kept)
  else if isPointingIndex cfg landmarks then
    (GestureType.draw, [])
  else
    (GestureType.none, [])

/-- `createState`: packages the output record; the source reads
`this.previousGesture` at call time, passed here explicitly.
Confidence is the constant 1.0. -/
def createState (previous gesture : GestureType) (velocity : Point2D)
    (duration : ℚ) : GestureState :=
  { current := gesture
    previous := previous
    duration := duration
    velocity := velocity
    confidence := 1 }

/-- `detect`: one frame of the detector.  `dt` is the elapsed time in
seconds when a previous call exists (`lastTime > 0`), else 0.  A null
frame short-circuits: the returned record is
`createState('none', (0,0), 0)` and, of the state, only `lastTime` has
been updated (the source assigns `this.lastTime = now` before the null
check and returns without touching any other field).  A present frame
runs velocity estimation, classification, and the transition
bookkeeping on `currentGesture` / `previousGesture` /
`gestureStartTime`, then records the frame in `lastLandmarks`. -/
def detect (cfg : GestureConfig) (s : DetectorState)
    (landmarks : Option HandLandmarks) (now : ℚ) :
    GestureState × DetectorState :=
  let dt := if s.lastTime > 0 then (now - s.lastTime) / 1000 else 0
  match landmarks with
  | Option.none =>
    (createState s.previousGesture GestureType.none { x := 0, y := 0 } 0,
      { s with lastTime := now })
  | Option.some lm =>
    let vres := calculateVelocity s.lastLandmarks s.velocityHistory lm dt
    let gres := detectGestureType cfg s.palmHistory lm vres.1
    let s1 :=
      if gres.1 ≠ s.currentGesture then
        { s with previousGesture := s.currentGesture
                 currentGesture := gres.1
                 gestureStartTime := now }
      else s
    let duration := now - s1.gestureStartTime
    let s2 :=
      { s1 with lastTime := now
                lastLandmarks := Option.some lm
                palmHistory := gres.2
                velocityHistory := vres.2 }
    (createState s2.previousGesture s2.currentGesture vres.1 duration, s2)

/-- Folding `detect` over a whole input sequence of (frame, timestamp)
pairs, discarding the per-frame outputs: the session state after a run
of calls. -/
def runDetector (cfg : GestureConfig) (s : DetectorState) :
    List (Option HandLandmarks × ℚ) → DetectorState
  | [] => s
  | (lm, t) :: rest => runDetector cfg (detect cfg s lm t).2 rest

/-- The `dt` computed at the top of `detect`, named so that theorems can
refer to the intermediate quantities of a call. -/
def dtOf (s : DetectorState) (now : ℚ) : ℚ :=
  if s.lastTime > 0 then (now - s.lastTime) / 1000 else 0

/-- The velocity / history pair computed by a `detect` call on a
present frame. -/
def velPair (s : DetectorState) (lm : HandLandmarks) (now : ℚ) :
    Point2D × List Point2D :=
  calculateVelocity s.lastLandmarks s.velocityHistory lm (dtOf s now)

/-- The label / palm-history pair computed by a `detect` call on a
present frame. -/
def classifyPair (cfg : GestureConfig) (s : DetectorState) (lm : HandLandmarks)
    (now : ℚ) : GestureType × List Point2D :=
  detectGestureType cfg s.palmHistory lm (velPair s lm now).1

/-- The label a `detect` call on a present frame classifies before the
transition bookkeeping. -/
def classify (cfg : GestureConfig) (s : DetectorState) (lm : HandLandmarks)
    (now : ℚ) : GestureType :=
  (classifyPair cfg s lm now).1

/-- The raw (unsmoothed) palm velocity `(palm_now - palm_prev) / dt`
computed inside `calculateVelocity` before smoothing. -/
def rawPalmVelocity (lastLm lm : HandLandmarks) (dt : ℚ) : Point2D :=
  { x := ((getPalmCenter lm).x - (getPalmCenter lastLm).x) / dt
    y := ((getPalmCenter lm).y - (getPalmCenter lastLm).y) / dt }

/-- A concrete configuration used by witnesses and counterexamples:
swipe velocity 1, pinch radius 1/10, curl ratio 6/5, stability radius
1/10 (all positive, curl ratio above 1, as the spec requires). -/
def cfg0 : GestureConfig :=
  { SWIPE_VELOCITY := 1
    PINCH_THRESHOLD := 1 / 10
    FINGER_CURL_THRESHOLD := 6 / 5
    PALM_STABILITY_THRESHOLD := 1 / 10 }

/-- The origin point. -/
def p0 : Point2D := { x := 0, y := 0 }

/-- A degenerate frame with all 21 landmarks at the origin: the
thumb-tip / index-tip distance is 0, so it classifies as `pinch` under
`cfg0` (swipe needs speed, which a zero velocity rules out). -/
def frameZero : HandLandmarks := ⟨fun _ => p0⟩

/-- A frame classifying as `none` under `cfg0` with zero velocity:
index and middle extended (tips at distance 2, PIPs at distance 1 from
the wrist), ring and pinky curled, thumb curled, thumb tip far from
the index tip. -/
def frameN : HandLandmarks :=
  ⟨fun i =>
    if i.val = 4 then { x := 5, y := 5 }
    else if i.val = 8 ∨ i.val = 12 then { x := 0, y := 2 }
    else if i.val = 6 ∨ i.val = 10 ∨ i.val = 14 ∨ i.val = 16 ∨ i.val = 18 ∨ i.val = 20 then
      { x := 0, y := 1 }
    else p0⟩

/-- A frame passing the open-palm test under `cfg0` with zero
velocity: all four finger tips at distance 2 and PIPs at distance 1
from the wrist, thumb tip at (3,0) with IP at (3,1) (extended), palm
center at the origin, thumb tip far from the index tip so pinch
fails. -/
def frameOpen : HandLandmarks :=
  ⟨fun i =>
    if i.val = 3 then { x := 3, y := 1 }
    else if i.val = 4 then { x := 3, y := 0 }
    else if i.val = 8 ∨ i.val = 12 ∨ i.val = 16 ∨ i.val = 20 then { x := 0, y := 2 }
    else if i.val = 6 ∨ i.val = 10 ∨ i.val = 14 ∨ i.val = 18 then { x := 0, y := 1 }
    else p0⟩

/-- A frame classifying as `draw` under `cfg0` with zero velocity:
only the index finger extended, thumb curled, thumb tip far from the
index tip. -/
def frameDraw : HandLandmarks :=
  ⟨fun i =>
    if i.val = 4 then { x := 5, y := 5 }
    else if i.val = 8 then { x := 0, y := 2 }
    else if i.val = 6 ∨ i.val = 10 ∨ i.val = 12 ∨ i.val = 14 ∨ i.val = 16 ∨ i.val = 18 ∨ i.val = 20 then
      { x := 0, y := 1 }
    else p0⟩

/-- A concrete mid-session state used by witnesses: a `pinch` gesture
has been held since time 500, the last frame (`frameZero`) was seen at
time 900. -/
def sMid : DetectorState :=
  { lastLandmarks := Option.some frameZero
    lastTime := 900
    gestureStartTime := 500
    currentGesture := GestureType.pinch
    previousGesture := GestureType.none
    palmHistory := []
    velocityHistory := [] }

/-! ## Basic lemmas -/

/-- Squared distances are nonnegative. -/
lemma distSq_nonneg (p q : Point2D) : 0 ≤ distSq p q :=
  add_nonneg (mul_self_nonneg _) (mul_self_nonneg _)

/-- For nonnegative `d` and `t`, comparing `Real.sqrt d` with `t` is
the same as comparing `d` with `t * t`: the justification for the
squared-threshold form of the embedded comparisons. -/
lemma sqrt_lt_iff_mul_self {d t : ℝ} (hd : 0 ≤ d) (ht : 0 ≤ t) :
    Real.sqrt d < t ↔ d < t * t := by
  rcases eq_or_lt_of_le ht with h | h
  · constructor
    · intro hlt
      exact absurd hlt (not_lt.mpr (h ▸ Real.sqrt_nonneg d))
    · intro hlt
      exact absurd hlt (not_lt.mpr (by rw [← h, mul_zero] at *; exact hd))
  · rw [Real.sqrt_lt' h, sq]

/-- For nonnegative `b` and `c`, `Real.sqrt b * c < Real.sqrt a` iff
`b * (c * c) < a`: the justification for embedding the ratio tests with
squared distances and squared ratios. -/
lemma sqrt_mul_lt_sqrt_iff {a b : ℝ} (c : ℝ) (hb : 0 ≤ b) (hc : 0 ≤ c) :
    Real.sqrt b * c < Real.sqrt a ↔ b * (c * c) < a := by
  have h1 : Real.sqrt b * c = Real.sqrt (b * (c * c)) := by
    rw [show b * (c * c) = b * c ^ 2 by ring, Real.sqrt_mul hb, Real.sqrt_sq hc]
  rw [h1, Real.sqrt_lt_sqrt_iff (by positivity)]


/-! ## Unfolding lemmas for `detect` -/

/-- A null frame: `detect` returns the `none` record and only
`lastTime` moves. -/
lemma detect_none_eq (cfg : GestureConfig) (s : DetectorState) (now : ℚ) :
    detect cfg s Option.none now =
      (createState s.previousGesture GestureType.none { x := 0, y := 0 } 0,
        { s with lastTime := now }) := rfl

/-- A present frame whose classified label equals the held one: no
transition bookkeeping. -/
lemma detect_some_of_eq (cfg : GestureConfig) (s : DetectorState)
    (lm : HandLandmarks) (now : ℚ) (h : classify cfg s lm now = s.currentGesture) :
    detect cfg s (Option.some lm) now =
      (createState s.previousGesture s.currentGesture (velPair s lm now).1
          (now - s.gestureStartTime),
        { s with lastTime := now
                 lastLandmarks := Option.some lm
                 palmHistory := (classifyPair cfg s lm now).2
                 velocityHistory := (velPair s lm now).2 }) := by
  simp only [classify, classifyPair, velPair, dtOf] at h ⊢
  simp only [detect]
  rw [if_neg (not_ne_iff.mpr h)]

/-- A present frame whose classified label differs from the held one:
previous shift, duration reset. -/
lemma detect_some_of_ne (cfg : GestureConfig) (s : DetectorState)
    (lm : HandLandmarks) (now : ℚ) (h : classify cfg s lm now ≠ s.currentGesture) :
    detect cfg s (Option.some lm) now =
      (createState s.currentGesture (classify cfg s lm now) (velPair s lm now).1
          (now - now),
        { lastLandmarks := Option.some lm
          lastTime := now
          gestureStartTime := now
          currentGesture := classify cfg s lm now
          previousGesture := s.currentGesture
          palmHistory := (classifyPair cfg s lm now).2
          velocityHistory := (velPair s lm now).2 }) := by
  simp only [classify, classifyPair, velPair, dtOf] at h ⊢
  simp only [detect]
  rw [if_pos h]

/-- The reported label on a present frame is the classified label. -/
lemma detect_some_current (cfg : GestureConfig) (s : DetectorState)
    (lm : HandLandmarks) (now : ℚ) :
    (detect cfg s (Option.some lm) now).1.current = classify cfg s lm now := by
  rcases eq_or_ne (classify cfg s lm now) s.currentGesture with h | h
  · rw [detect_some_of_eq cfg s lm now h]
    simp [createState, h]
  · rw [detect_some_of_ne cfg s lm now h]
    simp [createState]

/-- The held label after a present frame is the classified label. -/
lemma detect_some_state_current (cfg : GestureConfig) (s : DetectorState)
    (lm : HandLandmarks) (now : ℚ) :
    (detect cfg s (Option.some lm) now).2.currentGesture = classify cfg s lm now := by
  rcases eq_or_ne (classify cfg s lm now) s.currentGesture with h | h
  · rw [detect_some_of_eq cfg s lm now h]
    simp [h]
  · rw [detect_some_of_ne cfg s lm now h]

/-- The reported `previous` always coincides with the held
`previousGesture` after the call. -/
lemma detect_previous_eq (cfg : GestureConfig) (s : DetectorState)
    (a : Option HandLandmarks) (now : ℚ) :
    (detect cfg s a now).1.previous = (detect cfg s a now).2.previousGesture := by
  match a with
  | Option.none => rfl
  | Option.some lm =>
    rcases eq_or_ne (classify cfg s lm now) s.currentGesture with h | h
    · rw [detect_some_of_eq cfg s lm now h]
      rfl
    · rw [detect_some_of_ne cfg s lm now h]
      rfl

/-- The reported duration on a present frame is `now` minus the
(possibly reset) gesture start time. -/
lemma detect_some_duration (cfg : GestureConfig) (s : DetectorState)
    (lm : HandLandmarks) (now : ℚ) :
    (detect cfg s (Option.some lm) now).1.duration =
      now - (detect cfg s (Option.some lm) now).2.gestureStartTime := by
  rcases eq_or_ne (classify cfg s lm now) s.currentGesture with h | h
  · rw [detect_some_of_eq cfg s lm now h]
    rfl
  · rw [detect_some_of_ne cfg s lm now h]
    rfl

/-- The gesture start time after a present frame: kept when the label
is unchanged, reset to `now` at a transition. -/
lemma detect_some_start (cfg : GestureConfig) (s : DetectorState)
    (lm : HandLandmarks) (now : ℚ) :
    (detect cfg s (Option.some lm) now).2.gestureStartTime =
      if classify cfg s lm now = s.currentGesture then s.gestureStartTime else now := by
  rcases eq_or_ne (classify cfg s lm now) s.currentGesture with h | h
  · rw [detect_some_of_eq cfg s lm now h, if_pos h]
  · rw [detect_some_of_ne cfg s lm now h, if_neg h]

/-- The held `previousGesture` after a present frame: kept when the
label is unchanged, shifted from `currentGesture` at a transition. -/
lemma detect_some_prev_state (cfg : GestureConfig) (s : DetectorState)
    (lm : HandLandmarks) (now : ℚ) :
    (detect cfg s (Option.some lm) now).2.previousGesture =
      if classify cfg s lm now = s.currentGesture then s.previousGesture
      else s.currentGesture := by
  rcases eq_or_ne (classify cfg s lm now) s.currentGesture with h | h
  · rw [detect_some_of_eq cfg s lm now h, if_pos h]
  · rw [detect_some_of_ne cfg s lm now h, if_neg h]

/-- The histories after a present frame are the ones produced by the
velocity estimator and the classifier. -/
lemma detect_some_histories (cfg : GestureConfig) (s : DetectorState)
    (lm : HandLandmarks) (now : ℚ) :
    (detect cfg s (Option.some lm) now).2.palmHistory = (classifyPair cfg s lm now).2 ∧
      (detect cfg s (Option.some lm) now).2.velocityHistory = (velPair s lm now).2 := by
  rcases eq_or_ne (classify cfg s lm now) s.currentGesture with h | h
  · rw [detect_some_of_eq cfg s lm now h]
    exact ⟨rfl, rfl⟩
  · rw [detect_some_of_ne cfg s lm now h]
    exact ⟨rfl, rfl⟩

/-- The frame and time records after a present frame. -/
lemma detect_some_last (cfg : GestureConfig) (s : DetectorState)
    (lm : HandLandmarks) (now : ℚ) :
    (detect cfg s (Option.some lm) now).2.lastLandmarks = Option.some lm ∧
      (detect cfg s (Option.some lm) now).2.lastTime = now := by
  rcases eq_or_ne (classify cfg s lm now) s.currentGesture with h | h
  · rw [detect_some_of_eq cfg s lm now h]
    exact ⟨rfl, rfl⟩
  · rw [detect_some_of_ne cfg s lm now h]
    exact ⟨rfl, rfl⟩

/-! ## Claim theorems: classifier level -/

/-- Claim C6: a non-thumb finger tests as extended iff
`distance(tip, WRIST) > distance(pip, WRIST) * FINGER_CURL_THRESHOLD`,
and the thumb tests as extended iff
`distance(THUMB_TIP, INDEX_MCP) > distance(THUMB_TIP, THUMB_IP) * 1.5`,
the distances being planar Euclidean (`Real.sqrt` of the squared
distance).  The nonnegativity of the configured ratio is the spec's
`> 1.0` requirement, weakened to what the equivalence needs. -/
theorem fingerExtension_euclidean_spec (cfg : GestureConfig) (h : HandLandmarks)
    (tipIdx pipIdx mcpIdx : Fin 21) (hr : 0 ≤ cfg.FINGER_CURL_THRESHOLD) :
    (isFingerExtended cfg h tipIdx pipIdx mcpIdx = true ↔
      Real.sqrt (distSq (h.landmarks tipIdx) (h.landmarks LANDMARKS.WRIST) : ℚ) >
        Real.sqrt (distSq (h.landmarks pipIdx) (h.landmarks LANDMARKS.WRIST) : ℚ) *
          (cfg.FINGER_CURL_THRESHOLD : ℚ)) ∧
    (isThumbExtended h = true ↔
      Real.sqrt (distSq (h.landmarks LANDMARKS.THUMB_TIP) (h.landmarks LANDMARKS.INDEX_MCP) : ℚ) >
        Real.sqrt (distSq (h.landmarks LANDMARKS.THUMB_TIP) (h.landmarks LANDMARKS.THUMB_IP) : ℚ) *
          ((3 : ℝ) / 2)) := by
  constructor
  · simp only [isFingerExtended, decide_eq_true_eq, gt_iff_lt]
    rw [sqrt_mul_lt_sqrt_iff (cfg.FINGER_CURL_THRESHOLD : ℚ)
      (by exact_mod_cast distSq_nonneg _ _) (by exact_mod_cast hr)]
    norm_cast
  · simp only [isThumbExtended, decide_eq_true_eq, gt_iff_lt]
    rw [sqrt_mul_lt_sqrt_iff ((3 : ℝ) / 2)
      (by exact_mod_cast distSq_nonneg _ _) (by norm_num),
      show (3 : ℝ) / 2 * ((3 : ℝ) / 2) = ((3 / 2 * (3 / 2) : ℚ) : ℝ) by push_cast; ring]
    constructor <;> intro hh <;> exact_mod_cast hh

/-- Claim C6 witness: the index finger and thumb tests of `frameOpen`
under `cfg0`. -/
theorem fingerExtension_euclidean_spec_witness :
    0 ≤ cfg0.FINGER_CURL_THRESHOLD ∧
      ((isFingerExtended cfg0 frameOpen LANDMARKS.INDEX_TIP LANDMARKS.INDEX_PIP
            LANDMARKS.INDEX_MCP = true ↔
        Real.sqrt (distSq (frameOpen.landmarks LANDMARKS.INDEX_TIP)
            (frameOpen.landmarks LANDMARKS.WRIST) : ℚ) >
          Real.sqrt (distSq (frameOpen.landmarks LANDMARKS.INDEX_PIP)
              (frameOpen.landmarks LANDMARKS.WRIST) : ℚ) *
            (cfg0.FINGER_CURL_THRESHOLD : ℚ)) ∧
      (isThumbExtended frameOpen = true ↔
        Real.sqrt (distSq (frameOpen.landmarks LANDMARKS.THUMB_TIP)
            (frameOpen.landmarks LANDMARKS.INDEX_MCP) : ℚ) >
          Real.sqrt (distSq (frameOpen.landmarks LANDMARKS.THUMB_TIP)
              (frameOpen.landmarks LANDMARKS.THUMB_IP) : ℚ) *
            ((3 : ℝ) / 2))) :=
  ⟨by norm_num [cfg0],
    fingerExtension_euclidean_spec cfg0 frameOpen LANDMARKS.INDEX_TIP LANDMARKS.INDEX_PIP
      LANDMARKS.INDEX_MCP (by norm_num [cfg0])⟩

/-- Claim C7 (amended): the classifier is deterministic in
(landmarks, velocity, palm history); in particular, whenever the
open-palm finger test fails on the frame, its label does not depend on
the session's palm history at all. -/
theorem classifier_independent_of_history (cfg : GestureConfig)
    (h1 h2 : List Point2D) (lm : HandLandmarks) (v : Point2D)
    (hopen : isOpenPalm cfg lm = false) :
    (detectGestureType cfg h1 lm v).1 = (detectGestureType cfg h2 lm v).1 := by
  simp only [detectGestureType, hopen]
  split_ifs <;> first | rfl | assumption

/-- Claim C7 witness: a pointing frame classifies as `draw` whatever
the palm history. -/
theorem classifier_independent_of_history_witness :
    isOpenPalm cfg0 frameDraw = false ∧
      (detectGestureType cfg0 [p0] frameDraw p0).1 =
        (detectGestureType cfg0 [] frameDraw p0).1 :=
  ⟨by norm_num [isOpenPalm, isFingerExtended, isThumbExtended, frameDraw, cfg0, distSq, p0,
      LANDMARKS.WRIST, LANDMARKS.THUMB_IP, LANDMARKS.THUMB_TIP, LANDMARKS.INDEX_MCP,
      LANDMARKS.INDEX_PIP, LANDMARKS.INDEX_TIP, LANDMARKS.MIDDLE_MCP, LANDMARKS.MIDDLE_PIP,
      LANDMARKS.MIDDLE_TIP, LANDMARKS.RING_MCP, LANDMARKS.RING_PIP, LANDMARKS.RING_TIP,
      LANDMARKS.PINKY_MCP, LANDMARKS.PINKY_PIP, LANDMARKS.PINKY_TIP],
    classifier_independent_of_history cfg0 [p0] [] frameDraw p0
      (by norm_num [isOpenPalm, isFingerExtended, isThumbExtended, frameDraw, cfg0, distSq, p0,
        LANDMARKS.WRIST, LANDMARKS.THUMB_IP, LANDMARKS.THUMB_TIP, LANDMARKS.INDEX_MCP,
        LANDMARKS.INDEX_PIP, LANDMARKS.INDEX_TIP, LANDMARKS.MIDDLE_MCP, LANDMARKS.MIDDLE_PIP,
        LANDMARKS.MIDDLE_TIP, LANDMARKS.RING_MCP, LANDMARKS.RING_PIP, LANDMARKS.RING_TIP,
        LANDMARKS.PINKY_MCP, LANDMARKS.PINKY_PIP, LANDMARKS.PINKY_TIP])⟩

/-- Claim C7 counterexample: the classifier is *not* a pure function
of (landmarks, velocity) alone — the same open-palm frame with the
same zero velocity yields `palm` for one session history and `none`
for another. -/
theorem classifier_depends_on_history_cx :
    (detectGestureType cfg0 [p0, p0] frameOpen p0).1 = GestureType.palm ∧
      (detectGestureType cfg0 [] frameOpen p0).1 = GestureType.none := by
  constructor <;>
    norm_num [detectGestureType, cfg0, frameOpen, p0, distSq, isFist, isOpenPalm,
      isPointingIndex, isFingerExtended, isThumbExtended, isPalmStable, getPalmCenter,
      LANDMARKS.THUMB_TIP, LANDMARKS.INDEX_TIP, LANDMARKS.WRIST, LANDMARKS.THUMB_IP,
      LANDMARKS.INDEX_MCP, LANDMARKS.INDEX_PIP, LANDMARKS.MIDDLE_MCP, LANDMARKS.MIDDLE_PIP,
      LANDMARKS.MIDDLE_TIP, LANDMARKS.RING_MCP, LANDMARKS.RING_PIP, LANDMARKS.RING_TIP,
      LANDMARKS.PINKY_MCP, LANDMARKS.PINKY_PIP, LANDMARKS.PINKY_TIP]

/-- Claim C2: the classifier evaluates its rules in the fixed order
swipe, pinch, fist, (palm), draw, none, first match winning; in
particular a sub-threshold thumb/index distance with a failed swipe
check returns `pinch` (leaving the palm history untouched). -/
theorem classifier_rule_order (cfg : GestureConfig) (hist : List Point2D)
    (lm : HandLandmarks) (v : Point2D) :
    (v.x * v.x + v.y * v.y > cfg.SWIPE_VELOCITY * cfg.SWIPE_VELOCITY ∧
        |v.x| > |v.y| * (3 / 2) →
      detectGestureType cfg hist lm v = (GestureType.swipe, hist)) ∧
    (¬(v.x * v.x + v.y * v.y > cfg.SWIPE_VELOCITY * cfg.SWIPE_VELOCITY ∧
        |v.x| > |v.y| * (3 / 2)) →
      distSq (lm.landmarks LANDMARKS.THUMB_TIP) (lm.landmarks LANDMARKS.INDEX_TIP) <
          cfg.PINCH_THRESHOLD * cfg.PINCH_THRESHOLD →
      detectGestureType cfg hist lm v = (GestureType.pinch, hist)) ∧
    (¬(v.x * v.x + v.y * v.y > cfg.SWIPE_VELOCITY * cfg.SWIPE_VELOCITY ∧
        |v.x| > |v.y| * (3 / 2)) →
      ¬(distSq (lm.landmarks LANDMARKS.THUMB_TIP) (lm.landmarks LANDMARKS.INDEX_TIP) <
          cfg.PINCH_THRESHOLD * cfg.PINCH_THRESHOLD) →
      isFist cfg lm = true →
      detectGestureType cfg hist lm v = (GestureType.fist, hist)) ∧
    (¬(v.x * v.x + v.y * v.y > cfg.SWIPE_VELOCITY * cfg.SWIPE_VELOCITY ∧
        |v.x| > |v.y| * (3 / 2)) →
      ¬(distSq (lm.landmarks LANDMARKS.THUMB_TIP) (lm.landmarks LANDMARKS.INDEX_TIP) <
          cfg.PINCH_THRESHOLD * cfg.PINCH_THRESHOLD) →
      isFist cfg lm = false → isOpenPalm cfg lm = false → isPointingIndex cfg lm = true →
      detectGestureType cfg hist lm v = (GestureType.draw, [])) ∧
    (¬(v.x * v.x + v.y * v.y > cfg.SWIPE_VELOCITY * cfg.SWIPE_VELOCITY ∧
        |v.x| > |v.y| * (3 / 2)) →
      ¬(distSq (lm.landmarks LANDMARKS.THUMB_TIP) (lm.landmarks LANDMARKS.INDEX_TIP) <
          cfg.PINCH_THRESHOLD * cfg.PINCH_THRESHOLD) →
      isFist cfg lm = false → isOpenPalm cfg lm = false → isPointingIndex cfg lm = false →
      detectGestureType cfg hist lm v = (GestureType.none, [])) := by
  refine ⟨fun hs => ?_, fun hs hp => ?_, fun hs hp hf => ?_,
    fun hs hp hf ho hd => ?_, fun hs hp hf ho hd => ?_⟩
  · simp only [detectGestureType]
    rw [if_pos hs]
  · simp only [detectGestureType]
    rw [if_neg hs, if_pos hp]
  · simp only [detectGestureType]
    rw [if_neg hs, if_neg hp, if_pos hf]
  · simp only [detectGestureType]
    rw [if_neg hs, if_neg hp, if_neg (by simp [hf]), if_neg (by simp [ho]), if_pos hd]
  · simp only [detectGestureType]
    rw [if_neg hs, if_neg hp, if_neg (by simp [hf]), if_neg (by simp [ho]),
      if_neg (by simp [hd])]

/-- Claim C2 witness: the rule-order theorem instantiated at `cfg0`,
the all-zero frame and zero velocity (where the pinch rule fires). -/
theorem classifier_rule_order_witness :
    (p0.x * p0.x + p0.y * p0.y > cfg0.SWIPE_VELOCITY * cfg0.SWIPE_VELOCITY ∧
        |p0.x| > |p0.y| * (3 / 2) →
      detectGestureType cfg0 [] frameZero p0 = (GestureType.swipe, [])) ∧
    (¬(p0.x * p0.x + p0.y * p0.y > cfg0.SWIPE_VELOCITY * cfg0.SWIPE_VELOCITY ∧
        |p0.x| > |p0.y| * (3 / 2)) →
      distSq (frameZero.landmarks LANDMARKS.THUMB_TIP)
          (frameZero.landmarks LANDMARKS.INDEX_TIP) <
        cfg0.PINCH_THRESHOLD * cfg0.PINCH_THRESHOLD →
      detectGestureType cfg0 [] frameZero p0 = (GestureType.pinch, [])) ∧
    (¬(p0.x * p0.x + p0.y * p0.y > cfg0.SWIPE_VELOCITY * cfg0.SWIPE_VELOCITY ∧
        |p0.x| > |p0.y| * (3 / 2)) →
      ¬(distSq (frameZero.landmarks LANDMARKS.THUMB_TIP)
          (frameZero.landmarks LANDMARKS.INDEX_TIP) <
        cfg0.PINCH_THRESHOLD * cfg0.PINCH_THRESHOLD) →
      isFist cfg0 frameZero = true →
      detectGestureType cfg0 [] frameZero p0 = (GestureType.fist, [])) ∧
    (¬(p0.x * p0.x + p0.y * p0.y > cfg0.SWIPE_VELOCITY * cfg0.SWIPE_VELOCITY ∧
        |p0.x| > |p0.y| * (3 / 2)) →
      ¬(distSq (frameZero.landmarks LANDMARKS.THUMB_TIP)
          (frameZero.landmarks LANDMARKS.INDEX_TIP) <
        cfg0.PINCH_THRESHOLD * cfg0.PINCH_THRESHOLD) →
      isFist cfg0 frameZero = false → isOpenPalm cfg0 frameZero = false →
      isPointingIndex cfg0 frameZero = true →
      detectGestureType cfg0 [] frameZero p0 = (GestureType.draw, [])) ∧
    (¬(p0.x * p0.x + p0.y * p0.y > cfg0.SWIPE_VELOCITY * cfg0.SWIPE_VELOCITY ∧
        |p0.x| > |p0.y| * (3 / 2)) →
      ¬(distSq (frameZero.landmarks LANDMARKS.THUMB_TIP)
          (frameZero.landmarks LANDMARKS.INDEX_TIP) <
        cfg0.PINCH_THRESHOLD * cfg0.PINCH_THRESHOLD) →
      isFist cfg0 frameZero = false → isOpenPalm cfg0 frameZero = false →
      isPointingIndex cfg0 frameZero = false →
      detectGestureType cfg0 [] frameZero p0 = (GestureType.none, [])) :=
  classifier_rule_order cfg0 [] frameZero p0

/-- Claim C4: `palm` is returned only when the stability test passes
on the (post-push) history; stability holds iff at least 3 samples are
present and every one of the most recent 3 lies within the
palm-stability radius of the oldest of those 3; and when the open-palm
test fails on a frame where it is reached, the palm history is cleared
entirely. -/
theorem palm_stability_gate (cfg : GestureConfig) (hist : List Point2D)
    (lm : HandLandmarks) (v : Point2D) :
    ((detectGestureType cfg hist lm v).1 = GestureType.palm →
      isOpenPalm cfg lm = true ∧
      3 ≤ (detectGestureType cfg hist lm v).2.length ∧
      isPalmStable cfg (detectGestureType cfg hist lm v).2 = true) ∧
    (∀ l : List Point2D,
      isPalmStable cfg l = true ↔
        3 ≤ l.length ∧
        ∀ p ∈ (l.reverse.take 3).reverse,
          distSq p ((l.reverse.take 3).reverse.headI) ≤
            cfg.PALM_STABILITY_THRESHOLD * cfg.PALM_STABILITY_THRESHOLD) ∧
    (¬(v.x * v.x + v.y * v.y > cfg.SWIPE_VELOCITY * cfg.SWIPE_VELOCITY ∧
        |v.x| > |v.y| * (3 / 2)) →
      ¬(distSq (lm.landmarks LANDMARKS.THUMB_TIP) (lm.landmarks LANDMARKS.INDEX_TIP) <
          cfg.PINCH_THRESHOLD * cfg.PINCH_THRESHOLD) →
      isFist cfg lm = false → isOpenPalm cfg lm = false →
      (detectGestureType cfg hist lm v).2 = []) := by
  refine ⟨?_, ?_, ?_⟩
  · intro hpalm
    simp only [detectGestureType] at hpalm ⊢
    split_ifs at hpalm ⊢ <;> simp_all
  · intro l
    simp only [isPalmStable]
    have hrw : (l.reverse.take 3).reverse = l.drop (l.length - 3) := by
      rw [← List.rtake_eq_reverse_take_reverse]
      rfl
    rw [hrw]
    split_ifs with hlen
    · simp only [Bool.false_eq_true, false_iff, not_and]
      intro h3
      omega
    · simp only [List.all_eq_true, decide_eq_true_eq]
      constructor
      · intro hall
        exact ⟨by omega, hall⟩
      · intro hall
        exact hall.2
  · intro hs hp hf ho
    simp only [detectGestureType]
    rw [if_neg hs, if_neg hp, if_neg (by simp [hf]), if_neg (by simp [ho])]
    split_ifs <;> rfl

/-- Claim C4 witness: two prior samples at the origin plus the stable
open-palm frame make the stability gate pass (the classified label is
`palm`, discharged by evaluation). -/
theorem palm_stability_gate_witness :
    isOpenPalm cfg0 frameOpen = true ∧
      3 ≤ (detectGestureType cfg0 [p0, p0] frameOpen p0).2.length ∧
      isPalmStable cfg0 (detectGestureType cfg0 [p0, p0] frameOpen p0).2 = true :=
  (palm_stability_gate cfg0 [p0, p0] frameOpen p0).1
    (by norm_num [detectGestureType, cfg0, frameOpen, p0, distSq, isFist, isOpenPalm,
      isPointingIndex, isFingerExtended, isThumbExtended, isPalmStable, getPalmCenter,
      LANDMARKS.THUMB_TIP, LANDMARKS.INDEX_TIP, LANDMARKS.WRIST, LANDMARKS.THUMB_IP,
      LANDMARKS.INDEX_MCP, LANDMARKS.INDEX_PIP, LANDMARKS.MIDDLE_MCP, LANDMARKS.MIDDLE_PIP,
      LANDMARKS.MIDDLE_TIP, LANDMARKS.RING_MCP, LANDMARKS.RING_PIP, LANDMARKS.RING_TIP,
      LANDMARKS.PINKY_MCP, LANDMARKS.PINKY_PIP, LANDMARKS.PINKY_TIP])

/-- Claim C5: the velocity estimator returns `(0,0)` and records no
sample when there is no prior frame or `dt = 0`; otherwise it appends
the raw velocity `(palm_now - palm_prev) / dt` to the capacity-2 FIFO
(evicting the oldest when full) and returns the arithmetic mean of the
samples held, so the first post-reset sample is returned unsmoothed
and a second frame returns the 2-sample average. -/
theorem velocity_estimator_spec (lastLm : Option HandLandmarks) (hist : List Point2D)
    (lm : HandLandmarks) (dt : ℚ) :
    ((lastLm = Option.none ∨ dt = 0) →
      calculateVelocity lastLm hist lm dt = ({ x := 0, y := 0 }, hist)) ∧
    (∀ l, lastLm = Option.some l → dt ≠ 0 → hist.length ≤ 2 →
      (calculateVelocity lastLm hist lm dt).2 =
        (if hist.length < 2 then hist else hist.tail) ++ [rawPalmVelocity l lm dt] ∧
      (calculateVelocity lastLm hist lm dt).1 =
        { x := (vsum (calculateVelocity lastLm hist lm dt).2).x /
            (((calculateVelocity lastLm hist lm dt).2.length : ℚ))
          y := (vsum (calculateVelocity lastLm hist lm dt).2).y /
            (((calculateVelocity lastLm hist lm dt).2.length : ℚ)) } ∧
      (hist = [] → (calculateVelocity lastLm hist lm dt).1 = rawPalmVelocity l lm dt) ∧
      (∀ v0, hist = [v0] →
        (calculateVelocity lastLm hist lm dt).1 =
          { x := (v0.x + (rawPalmVelocity l lm dt).x) / 2
            y := (v0.y + (rawPalmVelocity l lm dt).y) / 2 })) := by
  constructor
  · intro hz
    rcases hz with rfl | rfl
    · rfl
    · cases lastLm with
      | none => rfl
      | some l => simp [calculateVelocity]
  · rintro l rfl hdt hlen
    rcases hist with _ | ⟨a, _ | ⟨b, _ | ⟨c, rest⟩⟩⟩
    · refine ⟨?_, ?_, fun _ => ?_, ?_⟩
      · simp [calculateVelocity, hdt, rawPalmVelocity]
      · simp [calculateVelocity, hdt]
      · simp only [calculateVelocity]
        rw [if_neg hdt]
        simp only [List.nil_append, List.length_singleton, vsum, List.foldl_cons,
          List.foldl_nil, rawPalmVelocity]
        norm_num
      · intro v0 hv
        exact absurd hv (by simp)
    · refine ⟨?_, ?_, fun hv => absurd hv (by simp), fun v0 hv => ?_⟩
      · simp [calculateVelocity, hdt, rawPalmVelocity]
      · simp [calculateVelocity, hdt]
      · obtain rfl : v0 = a := by
          injection hv.symm
        simp only [calculateVelocity]
        rw [if_neg hdt]
        simp only [List.cons_append, List.nil_append, vsum, List.foldl_cons, List.foldl_nil,
          rawPalmVelocity]
        norm_num
    · refine ⟨?_, ?_, fun hv => absurd hv (by simp), fun v0 hv => absurd hv (by simp)⟩
      · simp [calculateVelocity, hdt, rawPalmVelocity]
      · simp [calculateVelocity, hdt]
    · exfalso
      simp only [List.length_cons] at hlen
      omega

/-- Claim C5 witness: the estimator at a concrete prior frame, empty
history and `dt = 1/10`. -/
theorem velocity_estimator_spec_witness :
    (Option.some frameZero = Option.none ∨ (1 / 10 : ℚ) = 0 →
      calculateVelocity (Option.some frameZero) [] frameZero (1 / 10) =
        ({ x := 0, y := 0 }, [])) ∧
    (∀ l, Option.some frameZero = Option.some l → (1 / 10 : ℚ) ≠ 0 →
      ([] : List Point2D).length ≤ 2 →
      (calculateVelocity (Option.some frameZero) [] frameZero (1 / 10)).2 =
        (if ([] : List Point2D).length < 2 then ([] : List Point2D) else [].tail) ++
          [rawPalmVelocity l frameZero (1 / 10)] ∧
      (calculateVelocity (Option.some frameZero) [] frameZero (1 / 10)).1 =
        { x := (vsum (calculateVelocity (Option.some frameZero) [] frameZero (1 / 10)).2).x /
            (((calculateVelocity (Option.some frameZero) [] frameZero (1 / 10)).2.length : ℚ))
          y := (vsum (calculateVelocity (Option.some frameZero) [] frameZero (1 / 10)).2).y /
            (((calculateVelocity (Option.some frameZero) [] frameZero (1 / 10)).2.length : ℚ)) } ∧
      (([] : List Point2D) = [] →
        (calculateVelocity (Option.some frameZero) [] frameZero (1 / 10)).1 =
          rawPalmVelocity l frameZero (1 / 10)) ∧
      (∀ v0, ([] : List Point2D) = [v0] →
        (calculateVelocity (Option.some frameZero) [] frameZero (1 / 10)).1 =
          { x := (v0.x + (rawPalmVelocity l frameZero (1 / 10)).x) / 2
            y := (v0.y + (rawPalmVelocity l frameZero (1 / 10)).y) / 2 })) :=
  velocity_estimator_spec (Option.some frameZero) [] frameZero (1 / 10)

/-! ## Claim theorems: state machine level -/

/-- Claim C10: a null-landmarks call leaves `currentGesture`,
`previousGesture`, `gestureStartTime`, `palmHistory`,
`velocityHistory` and `lastLandmarks` unchanged, updates only
`lastTime`, and returns `current = none`, velocity `(0,0)`,
duration 0; consequently a frame after the gap classifying as the
pre-gap label registers no transition and the pre-gap start time still
governs the reported duration. -/
theorem null_input_session_effect (cfg : GestureConfig) (s : DetectorState) (now : ℚ) :
    (detect cfg s Option.none now).1.current = GestureType.none ∧
    (detect cfg s Option.none now).1.velocity = { x := 0, y := 0 } ∧
    (detect cfg s Option.none now).1.duration = 0 ∧
    (detect cfg s Option.none now).2.currentGesture = s.currentGesture ∧
    (detect cfg s Option.none now).2.previousGesture = s.previousGesture ∧
    (detect cfg s Option.none now).2.gestureStartTime = s.gestureStartTime ∧
    (detect cfg s Option.none now).2.palmHistory = s.palmHistory ∧
    (detect cfg s Option.none now).2.velocityHistory = s.velocityHistory ∧
    (detect cfg s Option.none now).2.lastLandmarks = s.lastLandmarks ∧
    (detect cfg s Option.none now).2.lastTime = now ∧
    (∀ (lm : HandLandmarks) (t2 : ℚ),
      classify cfg (detect cfg s Option.none now).2 lm t2 = s.currentGesture →
      (detect cfg (detect cfg s Option.none now).2 (Option.some lm) t2).1.current =
        s.currentGesture ∧
      (detect cfg (detect cfg s Option.none now).2 (Option.some lm) t2).1.previous =
        s.previousGesture ∧
      (detect cfg (detect cfg s Option.none now).2 (Option.some lm) t2).1.duration =
        t2 - s.gestureStartTime) := by
  refine ⟨rfl, rfl, rfl, rfl, rfl, rfl, rfl, rfl, rfl, rfl, ?_⟩
  intro lm t2 h
  rw [detect_some_of_eq cfg ((detect cfg s Option.none now).2) lm t2 h]
  exact ⟨rfl, rfl, rfl⟩

/-- Claim C10 witness: a `pinch` session interrupted by a null frame
at time 1000; the all-zero frame at 1100 re-classifies as `pinch`, so
no transition is recorded and the duration still counts from the
pre-gap start time 500. -/
theorem null_input_session_effect_witness :
    classify cfg0 (detect cfg0 sMid Option.none 1000).2 frameZero 1100 = sMid.currentGesture ∧
      ((detect cfg0 (detect cfg0 sMid Option.none 1000).2 (Option.some frameZero) 1100).1.current =
          sMid.currentGesture ∧
        (detect cfg0 (detect cfg0 sMid Option.none 1000).2 (Option.some frameZero) 1100).1.previous =
          sMid.previousGesture ∧
        (detect cfg0 (detect cfg0 sMid Option.none 1000).2 (Option.some frameZero) 1100).1.duration =
          1100 - sMid.gestureStartTime) := by
  have hc : classify cfg0 (detect cfg0 sMid Option.none 1000).2 frameZero 1100 =
      sMid.currentGesture := by
    norm_num [classify, classifyPair, velPair, dtOf, detect, createState, sMid,
      calculateVelocity, getPalmCenter, vsum, detectGestureType, cfg0, frameZero, p0, distSq,
      LANDMARKS.THUMB_TIP, LANDMARKS.INDEX_TIP, LANDMARKS.WRIST, LANDMARKS.INDEX_MCP,
      LANDMARKS.PINKY_MCP]
  exact ⟨hc,
    (null_input_session_effect cfg0 sMid 1000).2.2.2.2.2.2.2.2.2.2 frameZero 1100 hc⟩

/-- Claim C1 (amended): a null frame N following a non-null frame N-1
reports `current = none` with duration 0, but its reported `previous`
equals the `previous` reported on frame N-1 (the label preceding the
most recent transition), not frame N-1's current label, and no
transition bookkeeping happens: the held label and the gesture start
time survive the null frame unchanged. -/
theorem null_after_frame_reports (cfg : GestureConfig) (s : DetectorState)
    (a : HandLandmarks) (t1 t2 : ℚ) :
    (detect cfg (detect cfg s (Option.some a) t1).2 Option.none t2).1.current =
      GestureType.none ∧
    (detect cfg (detect cfg s (Option.some a) t1).2 Option.none t2).1.duration = 0 ∧
    (detect cfg (detect cfg s (Option.some a) t1).2 Option.none t2).1.previous =
      (detect cfg s (Option.some a) t1).1.previous ∧
    (detect cfg (detect cfg s (Option.some a) t1).2 Option.none t2).2.currentGesture =
      (detect cfg s (Option.some a) t1).1.current ∧
    (detect cfg (detect cfg s (Option.some a) t1).2 Option.none t2).2.gestureStartTime =
      (detect cfg s (Option.some a) t1).2.gestureStartTime := by
  refine ⟨rfl, rfl, ?_, ?_, rfl⟩
  · exact (detect_previous_eq cfg s (Option.some a) t1).symm
  · exact (detect_some_state_current cfg s a t1).trans (detect_some_current cfg s a t1).symm

/-- Claim C1 counterexample: frame N-1 classifies `pinch` (a
transition away from the initial `none`), the null frame N reports
`current = none` as claimed, but its `previous` is `none` — the label
before the transition — not the `pinch` reported on frame N-1. -/
theorem null_after_pinch_cx :
    (detect cfg0 initState (Option.some frameZero) 100).1.current = GestureType.pinch ∧
    (detect cfg0 (detect cfg0 initState (Option.some frameZero) 100).2 Option.none 200).1.current =
      GestureType.none ∧
    (detect cfg0 (detect cfg0 initState (Option.some frameZero) 100).2 Option.none 200).1.previous ≠
      GestureType.pinch := by
  have hcl : classify cfg0 initState frameZero 100 = GestureType.pinch := by
    norm_num [classify, classifyPair, velPair, dtOf, calculateVelocity, detectGestureType,
      initState, cfg0, frameZero, p0, distSq, LANDMARKS.THUMB_TIP, LANDMARKS.INDEX_TIP]
  have h1 := detect_some_of_ne cfg0 initState frameZero 100 (by rw [hcl]; decide)
  refine ⟨?_, rfl, ?_⟩
  · rw [detect_some_current cfg0 initState frameZero 100]
    exact hcl
  · rw [h1, hcl]
    simp only [detect_none_eq, createState, initState]
    decide

/-- Claim C3 (amended): between two consecutive calls both carrying
landmarks, with non-decreasing timestamps, the reported duration is
non-decreasing while the reported label is unchanged (and `previous`
is then also unchanged), and the reported duration is exactly 0 at a
call whose reported label differs from the preceding one. -/
theorem duration_monotone_between_frames (cfg : GestureConfig) (s : DetectorState)
    (a b : HandLandmarks) (t1 t2 : ℚ) (hle : t1 ≤ t2) :
    ((detect cfg (detect cfg s (Option.some a) t1).2 (Option.some b) t2).1.current =
        (detect cfg s (Option.some a) t1).1.current →
      (detect cfg s (Option.some a) t1).1.duration ≤
        (detect cfg (detect cfg s (Option.some a) t1).2 (Option.some b) t2).1.duration ∧
      (detect cfg (detect cfg s (Option.some a) t1).2 (Option.some b) t2).1.previous =
        (detect cfg s (Option.some a) t1).1.previous) ∧
    ((detect cfg (detect cfg s (Option.some a) t1).2 (Option.some b) t2).1.current ≠
        (detect cfg s (Option.some a) t1).1.current →
      (detect cfg (detect cfg s (Option.some a) t1).2 (Option.some b) t2).1.duration = 0) := by
  have hcur1 : (detect cfg s (Option.some a) t1).1.current =
      (detect cfg s (Option.some a) t1).2.currentGesture :=
    (detect_some_current cfg s a t1).trans (detect_some_state_current cfg s a t1).symm
  have hdur1 : (detect cfg s (Option.some a) t1).1.duration =
      t1 - (detect cfg s (Option.some a) t1).2.gestureStartTime :=
    detect_some_duration cfg s a t1
  have hprev1 : (detect cfg s (Option.some a) t1).1.previous =
      (detect cfg s (Option.some a) t1).2.previousGesture :=
    detect_previous_eq cfg s (Option.some a) t1
  rcases eq_or_ne (classify cfg (detect cfg s (Option.some a) t1).2 b t2)
      (detect cfg s (Option.some a) t1).2.currentGesture with h | h
  · rw [detect_some_of_eq cfg ((detect cfg s (Option.some a) t1).2) b t2 h]
    simp only [createState]
    constructor
    · intro _
      constructor
      · rw [hdur1]
        exact sub_le_sub_right hle _
      · exact hprev1.symm
    · intro hne
      exact absurd hcur1.symm hne
  · rw [detect_some_of_ne cfg ((detect cfg s (Option.some a) t1).2) b t2 h]
    simp only [createState]
    constructor
    · intro heq
      exact absurd (heq.trans hcur1) h
    · intro _
      exact sub_self t2

/-- Claim C3 witness: the monotonicity statement instantiated at two
consecutive all-zero frames at times 100 and 200 from the initial
state. -/
theorem duration_monotone_between_frames_witness :
    (100 : ℚ) ≤ 200 ∧
      (((detect cfg0 (detect cfg0 initState (Option.some frameZero) 100).2
            (Option.some frameZero) 200).1.current =
          (detect cfg0 initState (Option.some frameZero) 100).1.current →
        (detect cfg0 initState (Option.some frameZero) 100).1.duration ≤
          (detect cfg0 (detect cfg0 initState (Option.some frameZero) 100).2
            (Option.some frameZero) 200).1.duration ∧
        (detect cfg0 (detect cfg0 initState (Option.some frameZero) 100).2
            (Option.some frameZero) 200).1.previous =
          (detect cfg0 initState (Option.some frameZero) 100).1.previous) ∧
      ((detect cfg0 (detect cfg0 initState (Option.some frameZero) 100).2
            (Option.some frameZero) 200).1.current ≠
          (detect cfg0 initState (Option.some frameZero) 100).1.current →
        (detect cfg0 (detect cfg0 initState (Option.some frameZero) 100).2
            (Option.some frameZero) 200).1.duration = 0)) :=
  ⟨by norm_num,
    duration_monotone_between_frames cfg0 initState frameZero frameZero 100 200 (by norm_num)⟩

/-- Claim C3 counterexample: with a null frame in the sequence the
claim fails — a hand frame classifying `none` at time 1000 reports
duration 1000, the null frame at time 2000 reports the same label
`none` but duration 0, a strict decrease with non-decreasing
timestamps (and hence also a reset without a reported-label change). -/
theorem duration_drop_on_null_cx :
    (1000 : ℚ) ≤ 2000 ∧
    (detect cfg0 (detect cfg0 initState (Option.some frameN) 1000).2 Option.none 2000).1.current =
      (detect cfg0 initState (Option.some frameN) 1000).1.current ∧
    (detect cfg0 (detect cfg0 initState (Option.some frameN) 1000).2 Option.none 2000).1.duration <
      (detect cfg0 initState (Option.some frameN) 1000).1.duration := by
  have hclN : classify cfg0 initState frameN 1000 = GestureType.none := by
    norm_num [classify, classifyPair, velPair, dtOf, calculateVelocity, detectGestureType,
      initState, cfg0, frameN, p0, distSq, isFist, isOpenPalm, isPointingIndex,
      isFingerExtended, isThumbExtended, LANDMARKS.THUMB_TIP, LANDMARKS.INDEX_TIP,
      LANDMARKS.WRIST, LANDMARKS.THUMB_IP, LANDMARKS.INDEX_MCP, LANDMARKS.INDEX_PIP,
      LANDMARKS.MIDDLE_MCP, LANDMARKS.MIDDLE_PIP, LANDMARKS.MIDDLE_TIP, LANDMARKS.RING_MCP,
      LANDMARKS.RING_PIP, LANDMARKS.RING_TIP, LANDMARKS.PINKY_MCP, LANDMARKS.PINKY_PIP,
      LANDMARKS.PINKY_TIP]
  have h1 := detect_some_of_eq cfg0 initState frameN 1000 hclN
  refine ⟨by norm_num, ?_, ?_⟩
  · rw [h1]
    rfl
  · rw [h1]
    simp only [detect_none_eq, createState, initState]
    norm_num

/-- Claim C8 (amended): the last-time record is updated on every call;
the last-frame record is updated (to the new frame) only on calls with
landmarks present — a null call leaves it unchanged rather than
setting it to absent. -/
theorem last_records_update (cfg : GestureConfig) (s : DetectorState) (now : ℚ) :
    (∀ lm : HandLandmarks,
      (detect cfg s (Option.some lm) now).2.lastLandmarks = Option.some lm ∧
      (detect cfg s (Option.some lm) now).2.lastTime = now) ∧
    ((detect cfg s Option.none now).2.lastTime = now ∧
      (detect cfg s Option.none now).2.lastLandmarks = s.lastLandmarks) :=
  ⟨fun lm => detect_some_last cfg s lm now, rfl, rfl⟩

/-- Claim C8 counterexample: after seeing a frame at time 100, a null
call at time 200 leaves the last-frame record holding the old frame —
it is not tracked as absent. -/
theorem stale_lastLandmarks_on_null_cx :
    (detect cfg0 (detect cfg0 initState (Option.some frameZero) 100).2 Option.none 200).2.lastLandmarks =
      Option.some frameZero ∧
    (detect cfg0 (detect cfg0 initState (Option.some frameZero) 100).2 Option.none 200).2.lastLandmarks ≠
      Option.none := by
  have h2 : (detect cfg0 (detect cfg0 initState (Option.some frameZero) 100).2
      Option.none 200).2.lastLandmarks = Option.some frameZero :=
    (detect_some_last cfg0 initState frameZero 100).1
  exact ⟨h2, by rw [h2]; simp⟩

/-! ## History bound lemmas for claim C9 -/

/-- One velocity-estimation step keeps the velocity history within its
capacity of 2. -/
lemma calculateVelocity_length_le (lastLm : Option HandLandmarks) (hist : List Point2D)
    (lm : HandLandmarks) (dt : ℚ) (h : hist.length ≤ 2) :
    ((calculateVelocity lastLm hist lm dt).2).length ≤ 2 := by
  cases lastLm with
  | none => simpa [calculateVelocity] using h
  | some l =>
    simp only [calculateVelocity]
    split_ifs with hdt hbig
    · simpa using h
    · simp only [List.length_tail, List.length_append, List.length_cons, List.length_nil]
      omega
    · simp only [List.length_append, List.length_cons, List.length_nil] at hbig ⊢
      omega

/-- One classification step keeps the palm history within its capacity
of 6. -/
lemma detectGestureType_length_le (cfg : GestureConfig) (hist : List Point2D)
    (lm : HandLandmarks) (v : Point2D) (h : hist.length ≤ 6) :
    ((detectGestureType cfg hist lm v).2).length ≤ 6 := by
  simp only [detectGestureType]
  split_ifs <;>
    simp_all [List.length_tail, List.length_append, List.length_cons, List.length_nil]

/-- One `detect` call preserves both history bounds. -/
lemma detect_histories_le (cfg : GestureConfig) (s : DetectorState)
    (a : Option HandLandmarks) (t : ℚ) (h6 : s.palmHistory.length ≤ 6)
    (h2 : s.velocityHistory.length ≤ 2) :
    (detect cfg s a t).2.palmHistory.length ≤ 6 ∧
      (detect cfg s a t).2.velocityHistory.length ≤ 2 := by
  cases a with
  | none => exact ⟨h6, h2⟩
  | some lm =>
    obtain ⟨hp, hv⟩ := detect_some_histories cfg s lm t
    rw [hp, hv]
    simp only [classifyPair, velPair]
    exact ⟨detectGestureType_length_le cfg s.palmHistory lm _ h6,
      calculateVelocity_length_le s.lastLandmarks s.velocityHistory lm _ h2⟩

/-- The history bounds are invariant under any run of calls. -/
lemma runDetector_inv (cfg : GestureConfig) :
    ∀ (inputs : List (Option HandLandmarks × ℚ)) (s : DetectorState),
      s.palmHistory.length ≤ 6 → s.velocityHistory.length ≤ 2 →
      (runDetector cfg s inputs).palmHistory.length ≤ 6 ∧
        (runDetector cfg s inputs).velocityHistory.length ≤ 2
  | [], _, h6, h2 => ⟨h6, h2⟩
  | (a, t) :: rest, s, h6, h2 => by
    obtain ⟨h6s, h2s⟩ := detect_histories_le cfg s a t h6 h2
    exact runDetector_inv cfg rest (detect cfg s a t).2 h6s h2s

/-- Claim C9: after every call of every input sequence from the
initial state, the palm history holds at most 6 elements and the
velocity history at most 2. -/
theorem history_bounds (cfg : GestureConfig) (inputs : List (Option HandLandmarks × ℚ)) :
    (runDetector cfg initState inputs).palmHistory.length ≤ 6 ∧
      (runDetector cfg initState inputs).velocityHistory.length ≤ 2 :=
  runDetector_inv cfg inputs initState (by simp [initState]) (by simp [initState])
